import Mathlib

/-!
Shallow embedding of the gateway-api swap engine:
  * `src/src/services/uniswap.js`  — the `Uniswap` class (constructor,
    `fetch_route`, `swapExactIn`, `swapExactOut`);
  * the `Ethereum` service (`getETHBalance`, `approveERC20`, token lookup);
  * the HTTP route handlers for `/approve` and `/poll`.

On-chain reads and writes (the `@uniswap/sdk` fetcher, the ethers contract
calls, `tx.wait()`) are modelled as explicit environments passed to each
operation; machine integers are `Nat`; fallible calls return `Except` or
`Option`; the TS union type `T | string` of the Ethereum service is `Sum`.
-/

namespace Gateway

/-- Chain identifiers, from `uni.ChainId` of the uniswap SDK. -/
inductive ChainId where
  | MAINNET
  | KOVAN
deriving DecidableEq, Repr

/-- An ERC-20 asset; per the SDK its identity is (chainId, address).
Addresses are modelled as `Nat`. -/
structure Token where
  chainId : ChainId
  address : Nat
deriving DecidableEq, Repr

/-- The chain's canonical wrapped native asset, `uni.WETH[chainID]` in the
SDK: one fixed token per chain.  Address 1 is reserved for it in the model. -/
def WETH (c : ChainId) : Token := ⟨c, 1⟩

/-- An on-chain liquidity pool holding reserves of two tokens
(`uni.Pair`). -/
structure Pair where
  token0 : Token
  token1 : Token
  reserve0 : Nat
  reserve1 : Nat
deriving DecidableEq, Repr

/-- `t` is one of the two tokens of the pool. -/
def Pair.has (p : Pair) (t : Token) : Prop :=
  p.token0 = t ∨ p.token1 = t

/-- The pool token paired with `t` (SDK `pair.token1`/`token0` relative to
the given side). -/
def Pair.other (p : Pair) (t : Token) : Token :=
  if t = p.token0 then p.token1 else p.token0

/-- The pool reserve of token `t` (SDK `pair.reserveOf`). -/
def Pair.reserveOf (p : Pair) (t : Token) : Nat :=
  if t = p.token0 then p.reserve0 else p.reserve1

/-- `uni.Route`: the ordered pair list connecting `input` to `output`.
The SDK constructor checks connectivity; the embedding records the fields
the engine passes to it. -/
structure Route where
  pairs : List Pair
  input : Token
  output : Token
deriving DecidableEq, Repr

/-- The on-chain pool state visible to `uni.Fetcher.fetchPairData`: the
pools that exist.  A pool serves both orientations of its token pair. -/
structure PairEnv where
  pools : List Pair

/-- Look up the pool for tokens `a`, `b` (either orientation). -/
def PairEnv.findPool (env : PairEnv) (a b : Token) : Option Pair :=
  env.pools.find? (fun p =>
    decide ((p.token0 = a ∧ p.token1 = b) ∨ (p.token0 = b ∧ p.token1 = a)))

/-- The failure raised by `uni.Fetcher.fetchPairData` when no pool contract
exists for the pair. -/
inductive FetchError where
  | noPoolFound (a b : Token)
deriving DecidableEq, Repr

/-- How `fetch_route` can fail.  `fetchError` wraps the SDK fetch failure
that the code lets propagate uncaught; `NoLiquidity` is the typed error the
specification names — nothing in the source constructs it. -/
inductive RouteFailure where
  | fetchError (e : FetchError)
  | NoLiquidity
deriving DecidableEq, Repr

/-- `uni.Fetcher.fetchPairData(a, b)`: the pool, or a fetch failure when no
pool contract exists. -/
def fetchPairData (env : PairEnv) (a b : Token) : Except FetchError Pair :=
  match env.findPool a b with
  | some p => Except.ok p
  | none => Except.error (FetchError.noPoolFound a b)

/-- Slippage tolerance as `uni.Percent(num, den)`. -/
structure Percent where
  num : Nat
  den : Nat
deriving DecidableEq, Repr

/-- TTL constant of `uniswap.js` (`const TTL = 60`), in seconds. -/
def TTL : Nat := 60

/-- Gas-limit constant of `uniswap.js` (`const GAS_LIMIT = 1200000`). -/
def GAS_LIMIT : Nat := 1200000

/-- The configuration state the `Uniswap` constructor establishes: the
chain id selected from the network name, and the slippage tolerance
`new uni.Percent('0', '100')`. -/
structure Uniswap where
  chainID : ChainId
  allowedSlippage : Percent
deriving DecidableEq, Repr

/-- The `Uniswap` constructor: `'kovan'` and `'mainnet'` select their chain
ids; any other network name throws `Error('Invalid network ' + network)`
before any operation can run.  `Except` carries the thrown message. -/
def Uniswap.construct (network : String) : Except String Uniswap :=
  if network = "kovan" then
    Except.ok { chainID := ChainId.KOVAN, allowedSlippage := ⟨0, 100⟩ }
  else if network = "mainnet" then
    Except.ok { chainID := ChainId.MAINNET, allowedSlippage := ⟨0, 100⟩ }
  else
    Except.error ("Invalid network " ++ network)

/-- `Uniswap.fetch_route(tokenIn, tokenOut)`: try the direct pair; on a
fetch failure (the catch branch) build the indirect route through
`uni.WETH[this.chainID]`, fetching `(tokenIn, WETH)` then
`(tokenOut, WETH)`.  A failing leg fetch happens inside the catch block and
is not caught: its error propagates to the caller as-is. -/
def fetch_route (env : PairEnv) (cfg : Uniswap) (tokenIn tokenOut : Token) :
    Except RouteFailure Route :=
  match fetchPairData env tokenIn tokenOut with
  | Except.ok pair =>
      Except.ok { pairs := [pair], input := tokenIn, output := tokenOut }
  | Except.error _ =>
      match fetchPairData env tokenIn (WETH cfg.chainID) with
      | Except.error e => Except.error (RouteFailure.fetchError e)
      | Except.ok pairOne =>
          match fetchPairData env tokenOut (WETH cfg.chainID) with
          | Except.error e => Except.error (RouteFailure.fetchError e)
          | Except.ok pairTwo =>
              Except.ok { pairs := [pairOne, pairTwo],
                          input := tokenIn, output := tokenOut }

/-- SDK constant-product output (`Pair.getOutputAmount`): for input
`amountIn` of token `t`, output `amountIn·997·reserveOut /
(reserveIn·1000 + amountIn·997)`, truncating. -/
def getOutputAmount (p : Pair) (t : Token) (amountIn : Nat) : Nat :=
  amountIn * 997 * p.reserveOf (p.other t) /
    (p.reserveOf t * 1000 + amountIn * 997)

/-- SDK constant-product input (`Pair.getInputAmount`): the input of the
token paired with `tOut` required to draw `amountOut` of `tOut`:
`reserveIn·amountOut·1000 / ((reserveOut − amountOut)·997) + 1`. -/
def getInputAmount (p : Pair) (tOut : Token) (amountOut : Nat) : Nat :=
  p.reserveOf (p.other tOut) * amountOut * 1000 /
    ((p.reserveOf tOut - amountOut) * 997) + 1

/-- Chain `getOutputAmount` along the route's pairs, hop by hop from the
input token. -/
def routeChainOut : List Pair → Token → Nat → Nat
  | [], _, amount => amount
  | p :: ps, t, amount => routeChainOut ps (p.other t) (getOutputAmount p t amount)

/-- Chain `getInputAmount` backwards along the route: the argument list is
the route's pair list reversed, starting from the output token. -/
def routeChainInRev : List Pair → Token → Nat → Nat
  | [], _, amount => amount
  | p :: ps, t, amount => routeChainInRev ps (p.other t) (getInputAmount p t amount)

/-- The route's token path, input first (`route.path` in the SDK). -/
def routePath : List Pair → Token → List Token
  | [], t => [t]
  | p :: ps, t => t :: routePath ps (p.other t)

/-- Trade direction (`uni.TradeType`). -/
inductive TradeType where
  | exactInput
  | exactOutput
deriving DecidableEq, Repr

/-- A token amount: the token and its raw amount. -/
abbrev TokenAmount := Token × Nat

/-- `uni.Trade`: direction, route, and the fixed and computed amounts. -/
structure Trade where
  tradeType : TradeType
  route : Route
  inputAmount : Nat
  outputAmount : Nat
deriving DecidableEq, Repr

/-- `uni.Trade.exactIn(route, tokenAmountIn)`: the input amount is fixed
and the output amount is computed along the route. -/
def Trade.exactIn (route : Route) (tokenAmountIn : TokenAmount) : Trade :=
  { tradeType := TradeType.exactInput
    route := route
    inputAmount := tokenAmountIn.2
    outputAmount := routeChainOut route.pairs route.input tokenAmountIn.2 }

/-- `uni.Trade.exactOut(route, tokenAmountOut)`: the output amount is fixed
and the required input is computed backwards along the route. -/
def Trade.exactOut (route : Route) (tokenAmountOut : TokenAmount) : Trade :=
  { tradeType := TradeType.exactOutput
    route := route
    inputAmount := routeChainInRev route.pairs.reverse route.output tokenAmountOut.2
    outputAmount := tokenAmountOut.2 }

/-- SDK `trade.minimumAmountOut(tol)` for an exact-input trade:
`amountOut / (1 + tol)` truncating, with `tol = num/den`. -/
def minimumAmountOut (tol : Percent) (amountOut : Nat) : Nat :=
  amountOut * tol.den / (tol.den + tol.num)

/-- SDK `trade.maximumAmountIn(tol)` for an exact-output trade:
`amountIn · (1 + tol)` truncating, with `tol = num/den`. -/
def maximumAmountIn (tol : Percent) (amountIn : Nat) : Nat :=
  amountIn * (tol.den + tol.num) / tol.den

/-- The options record the engine passes to `uni.Router.swapCallParameters`:
`{ ttl, recipient, allowedSlippage }`. -/
structure TradeOptions where
  ttl : Nat
  recipient : Nat
  allowedSlippage : Percent
deriving DecidableEq, Repr

/-- The result of `uni.Router.swapCallParameters`: method name, arguments
(amounts, path, recipient, deadline) and the native value.  `amountA` is
the fixed amount, `amountB` the slippage bound. -/
structure SwapCall where
  methodName : String
  amountA : Nat
  amountB : Nat
  path : List Token
  recipient : Nat
  deadline : Nat
  value : Nat
deriving DecidableEq, Repr

/-- `uni.Router.swapCallParameters(trade, options)` for the token-for-token
method variants.  The SDK computes the deadline from the clock at call
time: `deadline = now + options.ttl`; `now` is the explicit clock
argument.  (The native-asset variants differ only in method name and
`value`; the deadline and bound arguments are identical.) -/
def swapCallParameters (trade : Trade) (opts : TradeOptions) (now : Nat) :
    SwapCall :=
  match trade.tradeType with
  | TradeType.exactInput =>
      { methodName := "swapExactTokensForTokens"
        amountA := trade.inputAmount
        amountB := minimumAmountOut opts.allowedSlippage trade.outputAmount
        path := routePath trade.route.pairs trade.route.input
        recipient := opts.recipient
        deadline := now + opts.ttl
        value := 0 }
  | TradeType.exactOutput =>
      { methodName := "swapTokensForExactTokens"
        amountA := trade.outputAmount
        amountB := maximumAmountIn opts.allowedSlippage trade.inputAmount
        path := routePath trade.route.pairs trade.route.input
        recipient := opts.recipient
        deadline := now + opts.ttl
        value := 0 }

/-- A signing wallet; only its address reaches the engine. -/
structure Wallet where
  address : Nat
deriving DecidableEq, Repr

/-- The pending-transaction object returned by an ethers contract call once
the node accepts the transaction into its pending pool; `hash` is the
transaction handle. -/
structure PendingTx where
  hash : Nat
deriving DecidableEq, Repr

/-- A transaction receipt, produced only after block inclusion.
`statusOk` is the on-chain success flag. -/
structure TxReceipt where
  transactionHash : Nat
  blockNumber : Nat
  statusOk : Bool
deriving DecidableEq, Repr

/-- A failure of an RPC-backed call, as ethers raises it: it may carry a
`reason` string or not. -/
inductive RpcError where
  | withReason (reason : String)
  | withoutReason
deriving DecidableEq, Repr

/-- The node as the submitter sees it: `broadcast` is the ethers contract
method call `contract[methodName](...args, {gasPrice, gasLimit, value})`,
resolving to a pending transaction on mempool acceptance; `wait` is
`tx.wait()`, resolving to the receipt once the transaction is included in a
block. -/
structure NodeEnv where
  broadcast : SwapCall → Nat → Nat → Except RpcError PendingTx
  wait : Nat → Except RpcError TxReceipt

/-- What a submit operation hands back: either the bare transaction handle
(the hash) or a full inclusion receipt. -/
inductive SubmitResult where
  | handle (txHash : Nat)
  | receipt (r : TxReceipt)
deriving DecidableEq, Repr

/-- `uni.Fetcher.fetchTokenData(chainID, tokenAddress)`: resolves the
chain-qualified token; its identity is exactly (chainId, address). -/
def fetchTokenData (chainID : ChainId) (tokenAddress : Nat) : Token :=
  ⟨chainID, tokenAddress⟩

/-- The swap call `swapExactIn` builds: an exact-input trade on the route,
passed to `swapCallParameters` with
`{ ttl: TTL, recipient: wallet.address, allowedSlippage: this.allowedSlippage }`. -/
def exactInCall (cfg : Uniswap) (wallet : Wallet) (route : Route)
    (tokenAddress amountIn now : Nat) : SwapCall :=
  swapCallParameters
    (Trade.exactIn route (fetchTokenData cfg.chainID tokenAddress, amountIn))
    { ttl := TTL, recipient := wallet.address,
      allowedSlippage := cfg.allowedSlippage } now

/-- The swap call `swapExactOut` builds, symmetrically. -/
def exactOutCall (cfg : Uniswap) (wallet : Wallet) (route : Route)
    (tokenAddress amountOut now : Nat) : SwapCall :=
  swapCallParameters
    (Trade.exactOut route (fetchTokenData cfg.chainID tokenAddress, amountOut))
    { ttl := TTL, recipient := wallet.address,
      allowedSlippage := cfg.allowedSlippage } now

/-- `Uniswap.swapExactIn`: build the call, invoke the contract method with
`gasPrice * 1e9` and `GAS_LIMIT`, then `await tx.wait()` and return
`txObj` — the inclusion receipt.  The transaction hash is only debug-logged,
never returned. -/
def swapExactIn (env : NodeEnv) (cfg : Uniswap) (wallet : Wallet)
    (route : Route) (tokenAddress amountIn gasPrice now : Nat) :
    Except RpcError SubmitResult :=
  let result := exactInCall cfg wallet route tokenAddress amountIn now
  match env.broadcast result (gasPrice * 1000000000) GAS_LIMIT with
  | Except.error e => Except.error e
  | Except.ok tx =>
      match env.wait tx.hash with
      | Except.error e => Except.error e
      | Except.ok txObj => Except.ok (SubmitResult.receipt txObj)

/-- `Uniswap.swapExactOut`: identical submit/wait structure for the
exact-output direction; returns `txObj`, the inclusion receipt. -/
def swapExactOut (env : NodeEnv) (cfg : Uniswap) (wallet : Wallet)
    (route : Route) (tokenAddress amountOut gasPrice now : Nat) :
    Except RpcError SubmitResult :=
  let result := exactOutCall cfg wallet route tokenAddress amountOut now
  match env.broadcast result (gasPrice * 1000000000) GAS_LIMIT with
  | Except.error e => Except.error e
  | Except.ok tx =>
      match env.wait tx.hash with
      | Except.error e => Except.error e
      | Except.ok txObj => Except.ok (SubmitResult.receipt txObj)

/-- The `err.reason ? reason = err.reason : reason = fallback` idiom every
catch block of the Ethereum service uses. -/
def errorReason (e : RpcError) (fallback : String) : String :=
  match e with
  | RpcError.withReason r => r
  | RpcError.withoutReason => fallback

/-- The Ethereum service's TS result type `α | string`: a success value or
a failure-reason string. -/
abbrev EthResult (α : Type) := Sum α String

/-- `Ethereum.getETHBalance(wallet)`: on success,
`balance.div((1e18).toString())` (truncating division); on a thrown error,
the catch block returns a reason string — `err.reason` when present, the
literal `'error ETH balance lookup'` otherwise.  The `wallet.getBalance()`
RPC call is the explicit argument. -/
def getETHBalance (balanceCall : Except RpcError Nat) : EthResult Nat :=
  match balanceCall with
  | Except.ok balance => Sum.inl (balance / 10 ^ 18)
  | Except.error err => Sum.inr (errorReason err "error ETH balance lookup")

/-- `ETH_APPROVAL_GAS_LIMIT` with its default 50000. -/
def APPROVAL_GAS_LIMIT : Nat := 50000

/-- The ERC-20 contract as `approveERC20` sees it:
`contract.approve(spender, amount, {gasPrice, gasLimit})` on the contract
at `tokenAddress`, resolving to a pending transaction or throwing. -/
structure ApproveEnv where
  approveCall : Nat → Nat → Nat → Nat → Nat → Except RpcError PendingTx

/-- `Ethereum.approveERC20(wallet, spender, tokenAddress, amount, gasPrice)`:
calls `contract.approve` with `gasPrice * 1e9` and the fixed approval gas
limit; the catch block returns `err.reason` or the literal
`'error approval'`. -/
def approveERC20 (env : ApproveEnv) (spender tokenAddress amount gasPrice : Nat) :
    EthResult PendingTx :=
  match env.approveCall tokenAddress spender amount
      (gasPrice * 1000000000) APPROVAL_GAS_LIMIT with
  | Except.ok tx => Sum.inl tx
  | Except.error err => Sum.inr (errorReason err "error approval")

/-- The JSON body the `/poll` handler returns: the echoed hash, the
`confirmed` flag, and the receipt field (`none` models the empty object
`{}` sent while unconfirmed). -/
structure PollResponse where
  txHash : Nat
  confirmed : Bool
  receipt : Option TxReceipt
deriving DecidableEq, Repr

/-- The node's receipt store: `getTransactionReceipt` by hash, `none` while
the transaction is not yet included. -/
abbrev ReceiptStore := Nat → Option TxReceipt

/-- The `/poll` route handler:
`receipt = await getTransactionReceipt(txHash)`;
`confirmed = receipt && receipt.blockNumber ? true : false` (JS truthiness:
a missing receipt or a zero block number is falsy); the response carries
the receipt only when confirmed, `{}` otherwise.  The handler only reads
the store; it is returned unchanged as the second component. -/
def pollHandler (chain : ReceiptStore) (txHash : Nat) :
    PollResponse × ReceiptStore :=
  let receipt := chain txHash
  let confirmed : Bool :=
    match receipt with
    | some r => decide (r.blockNumber ≠ 0)
    | none => false
  (⟨txHash, confirmed, if confirmed then receipt else none⟩, chain)

/-- Receipts are immutable once produced: a later chain state `c2` keeps
every receipt `c1` already had, unchanged. -/
def ReceiptsPersist (c1 c2 : ReceiptStore) : Prop :=
  ∀ h r, c1 h = some r → c2 h = some r

/-- `ethers.constants.MaxUint256`. -/
def MaxUint256 : Nat := 2 ^ 256 - 1

/-- `ethers.utils.parseUnits(amount, decimals)`: scale a token amount by
the token's decimal precision.  The request amount is modelled as a whole
number of tokens. -/
def parseUnits (amount decimals : Nat) : Nat := amount * 10 ^ decimals

/-- The allowance amount the `/approve` handler passes on:
`let amount = ethers.constants.MaxUint256; if (req.body.amount) amount =
parseUnits(req.body.amount, decimals)`.  `none` models a request without an
amount. -/
def approveAmount (requestAmount : Option Nat) (decimals : Nat) : Nat :=
  match requestAmount with
  | some a => parseUnits a decimals
  | none => MaxUint256

/-- JS `String.prototype.toUpperCase` on one ASCII code point: codes
97–122 (`'a'`–`'z'`) shift down by 32, everything else is unchanged. -/
def charToUpper (c : Nat) : Nat :=
  if 97 ≤ c ∧ c ≤ 122 then c - 32 else c

/-- `toUpperCase` on a string of code points. -/
def strToUpper (s : List Nat) : List Nat := s.map charToUpper

/-- The code point is an ASCII lowercase letter. -/
def isLowerCode (c : Nat) : Prop := 97 ≤ c ∧ c ≤ 122

/-- A token-list entry; only the fields the lookups compare. -/
structure TokenInfo where
  symbol : List Nat
  address : List Nat
deriving DecidableEq, Repr

/-- `Ethereum.getERC20TokenAddresses(tokenSymbol)`: filter the stored list
by `obj.symbol === tokenSymbol.toUpperCase()` — the stored symbol is
compared verbatim, only the query is upper-cased — and take element `[0]`
(`none` models JS `undefined` on an empty filter). -/
def getERC20TokenAddresses (tokens : List TokenInfo) (tokenSymbol : List Nat) :
    Option TokenInfo :=
  (tokens.filter (fun t => decide (t.symbol = strToUpper tokenSymbol))).head?

/-- `Ethereum.getERC20TokenByAddress(tokenAddress)`: filter by
`obj.address.toUpperCase() === tokenAddress.toUpperCase()` — both sides are
upper-cased — and take element `[0]`. -/
def getERC20TokenByAddress (tokens : List TokenInfo) (tokenAddress : List Nat) :
    Option TokenInfo :=
  (tokens.filter
    (fun t => decide (strToUpper t.address = strToUpper tokenAddress))).head?

/-! Concrete instances used to exercise the definitions. -/

/-- A sample token on Kovan. -/
def tokenA : Token := ⟨ChainId.KOVAN, 2⟩

/-- A second sample token on Kovan. -/
def tokenB : Token := ⟨ChainId.KOVAN, 3⟩

/-- The wrapped native asset on Kovan. -/
def wethK : Token := WETH ChainId.KOVAN

/-- The configuration the constructor produces for `'kovan'`. -/
def cfgKovan : Uniswap := ⟨ChainId.KOVAN, ⟨0, 100⟩⟩

/-- A chain with no pools at all. -/
def envEmpty : PairEnv := ⟨[]⟩

/-- A direct pool for (tokenA, tokenB). -/
def directPool : Pair := ⟨tokenA, tokenB, 1000000, 2000000⟩

/-- A (tokenA, WETH) bridge leg. -/
def legPoolA : Pair := ⟨tokenA, wethK, 500000, 600000⟩

/-- A (tokenB, WETH) bridge leg. -/
def legPoolB : Pair := ⟨tokenB, wethK, 700000, 800000⟩

/-- A chain holding only the direct pool. -/
def envDirect : PairEnv := ⟨[directPool]⟩

/-- A chain holding only the two bridge legs. -/
def envBridged : PairEnv := ⟨[legPoolA, legPoolB]⟩

/-- A single-hop route over the direct pool. -/
def demoRoute : Route := ⟨[directPool], tokenA, tokenB⟩

/-- A sample wallet. -/
def demoWallet : Wallet := ⟨900⟩

/-- A sample inclusion receipt. -/
def demoReceipt : TxReceipt := ⟨42, 7, true⟩

/-- A node that accepts every broadcast with hash 42 and reports inclusion
of every hash in block 7. -/
def demoNode : NodeEnv :=
  { broadcast := fun _ _ _ => Except.ok ⟨42⟩
    wait := fun h => Except.ok ⟨h, 7, true⟩ }

/-- An ERC-20 contract whose approve call always throws without a reason. -/
def failingApprove : ApproveEnv := ⟨fun _ _ _ _ _ => Except.error RpcError.withoutReason⟩

/-- A receipt store where only hash 42 is included. -/
def demoChain : ReceiptStore := fun h => if h = 42 then some demoReceipt else none

/-- A token-list entry with an all-uppercase symbol, `DAI` at `0xAB`. -/
def daiUpper : TokenInfo := ⟨[68, 65, 73], [48, 120, 65, 66]⟩

/-- A token-list entry whose stored symbol `dai` has lowercase letters. -/
def daiLower : TokenInfo := ⟨[100, 97, 105], [48, 120, 97, 98]⟩

/-! Helper lemmas shared by the claim proofs. -/

/-- A pool found by `findPool` contains both queried tokens. -/
theorem findPool_has {env : PairEnv} {a b : Token} {p : Pair}
    (h : env.findPool a b = some p) : p.has a ∧ p.has b := by
  unfold PairEnv.findPool at h
  have hp := List.find?_some h
  rcases of_decide_eq_true hp with h0 | h0
  · exact ⟨Or.inl h0.1, Or.inr h0.2⟩
  · exact ⟨Or.inr h0.2, Or.inl h0.1⟩

/-- A successful `fetchPairData` returns a pool containing both tokens. -/
theorem fetchPairData_ok_has {env : PairEnv} {a b : Token} {p : Pair}
    (h : fetchPairData env a b = Except.ok p) : p.has a ∧ p.has b := by
  unfold fetchPairData at h
  cases hf : env.findPool a b with
  | some q => rw [hf] at h; cases h; exact findPool_has hf
  | none => rw [hf] at h; cases h

/-- The head of a list, when present, is a member. -/
theorem head?_some_mem {α : Type} {l : List α} {a : α}
    (h : l.head? = some a) : a ∈ l := by
  cases l with
  | nil => cases h
  | cons b t =>
      simp only [List.head?_cons, Option.some.injEq] at h
      rw [← h]
      exact List.mem_cons_self b t

/-- `toUpperCase` never produces an ASCII lowercase letter. -/
theorem strToUpper_no_lower {s : List Nat} {c : Nat}
    (h : c ∈ strToUpper s) : ¬ isLowerCode c := by
  unfold strToUpper at h
  rcases List.mem_map.mp h with ⟨c0, _, rfl⟩
  unfold charToUpper isLowerCode
  by_cases h0 : 97 ≤ c0 ∧ c0 ≤ 122
  · rw [if_pos h0]
    omega
  · rw [if_neg h0]
    omega

/-! The claims. -/

/-- Claim C5: network names other than `'kovan'` and `'mainnet'` make the
`Uniswap` constructor throw the invalid-network error, and the supported
names construct the engine with the corresponding chain id; the `Except`
result of `Uniswap.construct` is the thrown error, raised during
construction, before any operation can be invoked on the engine. -/
theorem c5_network_validation :
    (Uniswap.construct "kovan"
      = Except.ok { chainID := ChainId.KOVAN, allowedSlippage := ⟨0, 100⟩ }) ∧
    (Uniswap.construct "mainnet"
      = Except.ok { chainID := ChainId.MAINNET, allowedSlippage := ⟨0, 100⟩ }) ∧
    (∀ network : String, network ≠ "kovan" → network ≠ "mainnet" →
      Uniswap.construct network
        = Except.error ("Invalid network " ++ network)) ∧
    (∀ network cfg, Uniswap.construct network = Except.ok cfg →
      (network = "kovan" ∧ cfg.chainID = ChainId.KOVAN) ∨
      (network = "mainnet" ∧ cfg.chainID = ChainId.MAINNET)) := by
  refine ⟨rfl, rfl, ?_, ?_⟩
  · intro n h1 h2
    simp [Uniswap.construct, h1, h2]
  · intro n cfg h
    unfold Uniswap.construct at h
    by_cases h1 : n = "kovan"
    · rw [if_pos h1] at h
      cases h
      exact Or.inl ⟨h1, rfl⟩
    · rw [if_neg h1] at h
      by_cases h2 : n = "mainnet"
      · rw [if_pos h2] at h
        cases h
        exact Or.inr ⟨h2, rfl⟩
      · rw [if_neg h2] at h
        cases h

/-- Witness for C5 at the concrete networks `'ropsten'`, `'kovan'`. -/
theorem c5_witness :
    Uniswap.construct "ropsten" = Except.error ("Invalid network " ++ "ropsten") ∧
    (("ropsten" = "kovan" ∧ cfgKovan.chainID = ChainId.KOVAN) ∨
      ("ropsten" = "mainnet" ∧ cfgKovan.chainID = ChainId.MAINNET) → False) ∧
    (("kovan" = "kovan" ∧ cfgKovan.chainID = ChainId.KOVAN) ∨
      ("kovan" = "mainnet" ∧ cfgKovan.chainID = ChainId.MAINNET)) :=
  ⟨c5_network_validation.2.2.1 "ropsten" (by decide) (by decide),
   by decide,
   c5_network_validation.2.2.2 "kovan" cfgKovan rfl⟩

/-- Claim C9: when the `/approve` request carries no amount, the allowance
passed to `approveERC20` is `MaxUint256 = 2^256 − 1` (unlimited); when it
carries an amount, the amount is scaled by the token's decimal precision
via `parseUnits`. -/
theorem c9_approve_amount :
    (∀ decimals : Nat, approveAmount none decimals = 2 ^ 256 - 1) ∧
    (∀ amount decimals : Nat,
      approveAmount (some amount) decimals = amount * 10 ^ decimals) :=
  ⟨fun _ => rfl, fun _ _ => rfl⟩

/-- At zero tolerance the minimum-out bound is the amount itself. -/
theorem minimumAmountOut_zero (a : Nat) : minimumAmountOut ⟨0, 100⟩ a = a := by
  unfold minimumAmountOut
  simp

/-- At zero tolerance the maximum-in bound is the amount itself. -/
theorem maximumAmountIn_zero (a : Nat) : maximumAmountIn ⟨0, 100⟩ a = a := by
  unfold maximumAmountIn
  simp

/-- Claim C7: under any configuration the constructor can produce (it
always installs the default tolerance `Percent('0','100')`), the
minimum-output bound embedded in the ExactIn call equals the trade's
computed counter-amount exactly, and the maximum-input bound of the
ExactOut call equals its computed counter-amount exactly. -/
theorem c7_zero_slippage_bounds (network : String) (cfg : Uniswap)
    (hcfg : Uniswap.construct network = Except.ok cfg) :
    ∀ (wallet : Wallet) (route : Route) (tokenAddress amount now : Nat),
      (exactInCall cfg wallet route tokenAddress amount now).amountB
        = (Trade.exactIn route
            (fetchTokenData cfg.chainID tokenAddress, amount)).outputAmount ∧
      (exactOutCall cfg wallet route tokenAddress amount now).amountB
        = (Trade.exactOut route
            (fetchTokenData cfg.chainID tokenAddress, amount)).inputAmount := by
  have hslip : cfg.allowedSlippage = ⟨0, 100⟩ := by
    unfold Uniswap.construct at hcfg
    by_cases h1 : network = "kovan"
    · rw [if_pos h1] at hcfg
      cases hcfg
      rfl
    · rw [if_neg h1] at hcfg
      by_cases h2 : network = "mainnet"
      · rw [if_pos h2] at hcfg
        cases hcfg
        rfl
      · rw [if_neg h2] at hcfg
        cases hcfg
  intro wallet route tokenAddress amount now
  constructor
  · have hdef : (exactInCall cfg wallet route tokenAddress amount now).amountB
        = minimumAmountOut cfg.allowedSlippage
            (Trade.exactIn route
              (fetchTokenData cfg.chainID tokenAddress, amount)).outputAmount := rfl
    rw [hdef, hslip, minimumAmountOut_zero]
  · have hdef : (exactOutCall cfg wallet route tokenAddress amount now).amountB
        = maximumAmountIn cfg.allowedSlippage
            (Trade.exactOut route
              (fetchTokenData cfg.chainID tokenAddress, amount)).inputAmount := rfl
    rw [hdef, hslip, maximumAmountIn_zero]

/-- Witness for C7 on the Kovan configuration and a concrete trade. -/
theorem c7_witness :
    (exactInCall cfgKovan demoWallet demoRoute 2 1000 100).amountB
      = (Trade.exactIn demoRoute
          (fetchTokenData cfgKovan.chainID 2, 1000)).outputAmount ∧
    (exactOutCall cfgKovan demoWallet demoRoute 2 1000 100).amountB
      = (Trade.exactOut demoRoute
          (fetchTokenData cfgKovan.chainID 2, 1000)).inputAmount :=
  c7_zero_slippage_bounds "kovan" cfgKovan rfl demoWallet demoRoute 2 1000 100

/-- Claim C6: for both trade directions the deadline embedded in the built
call is the clock time at submission plus exactly the 60-second TTL, and
after embedding it the engine performs no deadline validation of its own:
for every clock value whatsoever — including ones making the embedded
deadline already past — the submission outcome is exactly the node's
broadcast/wait outcome, with no deadline comparison. -/
theorem c6_deadline_ttl (cfg : Uniswap) (wallet : Wallet) (route : Route)
    (tokenAddress amount gasPrice now : Nat) :
    ((exactInCall cfg wallet route tokenAddress amount now).deadline = now + 60) ∧
    ((exactOutCall cfg wallet route tokenAddress amount now).deadline = now + 60) ∧
    (∀ (env : NodeEnv) (tx : PendingTx) (r : TxReceipt),
      env.broadcast (exactInCall cfg wallet route tokenAddress amount now)
          (gasPrice * 1000000000) GAS_LIMIT = Except.ok tx →
      env.wait tx.hash = Except.ok r →
      swapExactIn env cfg wallet route tokenAddress amount gasPrice now
        = Except.ok (SubmitResult.receipt r)) ∧
    (∀ (env : NodeEnv) (tx : PendingTx) (r : TxReceipt),
      env.broadcast (exactOutCall cfg wallet route tokenAddress amount now)
          (gasPrice * 1000000000) GAS_LIMIT = Except.ok tx →
      env.wait tx.hash = Except.ok r →
      swapExactOut env cfg wallet route tokenAddress amount gasPrice now
        = Except.ok (SubmitResult.receipt r)) := by
  refine ⟨rfl, rfl, ?_, ?_⟩
  · intro env tx r hb hw
    simp only [swapExactIn, hb, hw]
  · intro env tx r hb hw
    simp only [swapExactOut, hb, hw]

/-- Witness for C6: concrete deadline and submission through `demoNode`,
whose clock reads 100. -/
theorem c6_witness :
    ((exactInCall cfgKovan demoWallet demoRoute 2 1000 100).deadline = 100 + 60) ∧
    (swapExactIn demoNode cfgKovan demoWallet demoRoute 2 1000 5 100
      = Except.ok (SubmitResult.receipt ⟨42, 7, true⟩)) :=
  ⟨(c6_deadline_ttl cfgKovan demoWallet demoRoute 2 1000 5 100).1,
   (c6_deadline_ttl cfgKovan demoWallet demoRoute 2 1000 5 100).2.2.1
     demoNode ⟨42⟩ ⟨42, 7, true⟩ rfl rfl⟩

/-- Claim C2: `fetch_route` tries the direct pair first — when the direct
fetch succeeds the result is that single-hop route, the fallback untouched;
when the direct fetch fails and both WETH bridge legs exist, the result is
the two-hop route whose two pairs share the bridge asset (WETH of the
configured chain), connecting input → bridge → output; and every route the
resolver can ever return has one or two hops, never more. -/
theorem c2_route_resolution (env : PairEnv) (cfg : Uniswap) (tIn tOut : Token) :
    (∀ p, fetchPairData env tIn tOut = Except.ok p →
      fetch_route env cfg tIn tOut
        = Except.ok { pairs := [p], input := tIn, output := tOut }) ∧
    (∀ e p1 p2, fetchPairData env tIn tOut = Except.error e →
      fetchPairData env tIn (WETH cfg.chainID) = Except.ok p1 →
      fetchPairData env tOut (WETH cfg.chainID) = Except.ok p2 →
      fetch_route env cfg tIn tOut
        = Except.ok { pairs := [p1, p2], input := tIn, output := tOut } ∧
      p1.has tIn ∧ p1.has (WETH cfg.chainID) ∧
      p2.has tOut ∧ p2.has (WETH cfg.chainID)) ∧
    (∀ r, fetch_route env cfg tIn tOut = Except.ok r →
      r.pairs.length = 1 ∨ r.pairs.length = 2) := by
  refine ⟨?_, ?_, ?_⟩
  · intro p h
    simp only [fetch_route, h]
  · intro e p1 p2 hd h1 h2
    refine ⟨by simp only [fetch_route, hd, h1, h2], ?_, ?_, ?_, ?_⟩
    · exact (fetchPairData_ok_has h1).1
    · exact (fetchPairData_ok_has h1).2
    · exact (fetchPairData_ok_has h2).1
    · exact (fetchPairData_ok_has h2).2
  · intro r h
    unfold fetch_route at h
    cases hd : fetchPairData env tIn tOut with
    | ok p =>
        rw [hd] at h
        cases h
        exact Or.inl rfl
    | error e =>
        rw [hd] at h
        cases h1 : fetchPairData env tIn (WETH cfg.chainID) with
        | error e1 => rw [h1] at h; cases h
        | ok p1 =>
            rw [h1] at h
            cases h2 : fetchPairData env tOut (WETH cfg.chainID) with
            | error e2 => rw [h2] at h; cases h
            | ok p2 =>
                rw [h2] at h
                cases h
                exact Or.inr rfl

/-- Witness for C2: a chain with the direct pool yields the single-hop
route, and a chain with only the bridge legs yields the two-hop route
through WETH. -/
theorem c2_witness :
    (fetch_route envDirect cfgKovan tokenA tokenB
      = Except.ok { pairs := [directPool], input := tokenA, output := tokenB }) ∧
    (fetch_route envBridged cfgKovan tokenA tokenB
      = Except.ok { pairs := [legPoolA, legPoolB], input := tokenA, output := tokenB } ∧
      legPoolA.has tokenA ∧ legPoolA.has (WETH cfgKovan.chainID) ∧
      legPoolB.has tokenB ∧ legPoolB.has (WETH cfgKovan.chainID)) ∧
    ((⟨[directPool], tokenA, tokenB⟩ : Route).pairs.length = 1 ∨
      (⟨[directPool], tokenA, tokenB⟩ : Route).pairs.length = 2) :=
  ⟨(c2_route_resolution envDirect cfgKovan tokenA tokenB).1 directPool rfl,
   (c2_route_resolution envBridged cfgKovan tokenA tokenB).2.1
     (FetchError.noPoolFound tokenA tokenB) legPoolA legPoolB rfl rfl rfl,
   (c2_route_resolution envDirect cfgKovan tokenA tokenB).2.2
     ⟨[directPool], tokenA, tokenB⟩ rfl⟩

/-- Counterexample to C3 as stated: on a chain with no pools at all the
direct fetch and the first bridge-leg fetch both fail, and `fetch_route`
surfaces the leg's raw fetch error — not the typed `NoLiquidity` error the
claim names. -/
theorem c3_counterexample :
    fetch_route envEmpty cfgKovan tokenA tokenB
      = Except.error (RouteFailure.fetchError (FetchError.noPoolFound tokenA wethK)) ∧
    RouteFailure.fetchError (FetchError.noPoolFound tokenA wethK)
      ≠ RouteFailure.NoLiquidity :=
  ⟨rfl, by decide⟩

/-- Claim C3 amended: when the direct fetch fails and a bridge-leg fetch
also fails, `fetch_route` fails by propagating that leg's underlying fetch
error (the first failing leg's, as the legs are fetched in order), and no
execution of `fetch_route` ever produces the typed error `NoLiquidity`. -/
theorem c3_propagates_fetch_error (env : PairEnv) (cfg : Uniswap)
    (tIn tOut : Token) :
    (fetch_route env cfg tIn tOut ≠ Except.error RouteFailure.NoLiquidity) ∧
    (∀ e0 e, fetchPairData env tIn tOut = Except.error e0 →
      fetchPairData env tIn (WETH cfg.chainID) = Except.error e →
      fetch_route env cfg tIn tOut = Except.error (RouteFailure.fetchError e)) ∧
    (∀ e0 p1 e, fetchPairData env tIn tOut = Except.error e0 →
      fetchPairData env tIn (WETH cfg.chainID) = Except.ok p1 →
      fetchPairData env tOut (WETH cfg.chainID) = Except.error e →
      fetch_route env cfg tIn tOut = Except.error (RouteFailure.fetchError e)) := by
  refine ⟨?_, ?_, ?_⟩
  · intro h
    unfold fetch_route at h
    cases hd : fetchPairData env tIn tOut with
    | ok p => rw [hd] at h; cases h
    | error e =>
        rw [hd] at h
        cases h1 : fetchPairData env tIn (WETH cfg.chainID) with
        | error e1 => rw [h1] at h; cases h
        | ok p1 =>
            rw [h1] at h
            cases h2 : fetchPairData env tOut (WETH cfg.chainID) with
            | error e2 => rw [h2] at h; cases h
            | ok p2 => rw [h2] at h; cases h
  · intro e0 e hd h1
    simp only [fetch_route, hd, h1]
  · intro e0 p1 e hd h1 h2
    simp only [fetch_route, hd, h1, h2]

/-- Witness for C3 amended, on the empty chain and the bridged chain with
one leg removed. -/
theorem c3_witness :
    (fetch_route envEmpty cfgKovan tokenA tokenB
      ≠ Except.error RouteFailure.NoLiquidity) ∧
    (fetch_route envEmpty cfgKovan tokenA tokenB
      = Except.error (RouteFailure.fetchError (FetchError.noPoolFound tokenA wethK))) ∧
    (fetch_route (⟨[legPoolA]⟩ : PairEnv) cfgKovan tokenA tokenB
      = Except.error (RouteFailure.fetchError (FetchError.noPoolFound tokenB wethK))) :=
  ⟨(c3_propagates_fetch_error envEmpty cfgKovan tokenA tokenB).1,
   (c3_propagates_fetch_error envEmpty cfgKovan tokenA tokenB).2.1
     (FetchError.noPoolFound tokenA tokenB) (FetchError.noPoolFound tokenA wethK) rfl rfl,
   (c3_propagates_fetch_error (⟨[legPoolA]⟩ : PairEnv) cfgKovan tokenA tokenB).2.2
     (FetchError.noPoolFound tokenA tokenB) legPoolA
     (FetchError.noPoolFound tokenB wethK) rfl rfl rfl⟩

/-- Counterexample to C1 as stated: on a node that accepts the broadcast
(hash 42) and includes the transaction, `swapExactIn` returns the inclusion
receipt — the value `tx.wait()` resolved to — and that value is not the
transaction handle; the engine waited for inclusion instead of returning at
mempool acceptance. -/
theorem c1_counterexample :
    swapExactIn demoNode cfgKovan demoWallet demoRoute 2 1000 5 100
      = Except.ok (SubmitResult.receipt ⟨42, 7, true⟩) ∧
    SubmitResult.receipt (⟨42, 7, true⟩ : TxReceipt) ≠ SubmitResult.handle 42 :=
  ⟨rfl, by decide⟩

/-- Claim C1 amended: the submit operations block on inclusion — for both
directions, whenever the node accepts the broadcast with handle `tx` and
`tx.wait()` resolves to receipt `r`, the value returned is `r`, the
inclusion receipt, not the handle; the hash is only logged.  Receipt
polling remains a separate operation (`pollHandler`). -/
theorem c1_submit_returns_receipt (env : NodeEnv) (cfg : Uniswap)
    (wallet : Wallet) (route : Route)
    (tokenAddress amount gasPrice now : Nat) (tx : PendingTx) (r : TxReceipt) :
    (env.broadcast (exactInCall cfg wallet route tokenAddress amount now)
        (gasPrice * 1000000000) GAS_LIMIT = Except.ok tx →
      env.wait tx.hash = Except.ok r →
      swapExactIn env cfg wallet route tokenAddress amount gasPrice now
        = Except.ok (SubmitResult.receipt r)) ∧
    (env.broadcast (exactOutCall cfg wallet route tokenAddress amount now)
        (gasPrice * 1000000000) GAS_LIMIT = Except.ok tx →
      env.wait tx.hash = Except.ok r →
      swapExactOut env cfg wallet route tokenAddress amount gasPrice now
        = Except.ok (SubmitResult.receipt r)) := by
  constructor
  · intro hb hw
    simp only [swapExactIn, hb, hw]
  · intro hb hw
    simp only [swapExactOut, hb, hw]

/-- Witness for C1 amended on the demo node. -/
theorem c1_witness :
    swapExactOut demoNode cfgKovan demoWallet demoRoute 3 500 5 100
      = Except.ok (SubmitResult.receipt ⟨42, 7, true⟩) :=
  (c1_submit_returns_receipt demoNode cfgKovan demoWallet demoRoute 3 500 5 100
    ⟨42⟩ ⟨42, 7, true⟩).2 rfl rfl

/-- Counterexample to C4 as stated: two failure paths of the service layer
return plain strings.  A balance lookup whose RPC call throws without a
reason yields the literal string `'error ETH balance lookup'`, and a
failing approval yields `'error approval'` — not typed failure values. -/
theorem c4_counterexample :
    getETHBalance (Except.error RpcError.withoutReason)
      = Sum.inr "error ETH balance lookup" ∧
    approveERC20 failingApprove 10 11 12 13 = Sum.inr "error approval" :=
  ⟨rfl, rfl⟩

/-- Claim C4 amended: every failure path of the Ethereum service catches
the exception and returns a string — `err.reason` when the error carries
one, an operation-specific fallback string otherwise — rather than a typed
failure value. -/
theorem c4_failure_returns_string :
    (∀ e, getETHBalance (Except.error e)
      = Sum.inr (errorReason e "error ETH balance lookup")) ∧
    (∀ (env : ApproveEnv) (spender tokenAddress amount gasPrice : Nat) e,
      env.approveCall tokenAddress spender amount (gasPrice * 1000000000)
          APPROVAL_GAS_LIMIT = Except.error e →
      approveERC20 env spender tokenAddress amount gasPrice
        = Sum.inr (errorReason e "error approval")) := by
  constructor
  · intro e
    rfl
  · intro env spender tokenAddress amount gasPrice e h
    simp only [approveERC20, h]

/-- Witness for C4 amended: the failing approval environment, with and
without a carried reason. -/
theorem c4_witness :
    getETHBalance (Except.error (RpcError.withReason "boom"))
      = Sum.inr (errorReason (RpcError.withReason "boom") "error ETH balance lookup") ∧
    approveERC20 failingApprove 10 11 12 13
      = Sum.inr (errorReason RpcError.withoutReason "error approval") :=
  ⟨c4_failure_returns_string.1 (RpcError.withReason "boom"),
   c4_failure_returns_string.2 failingApprove 10 11 12 13
     RpcError.withoutReason rfl⟩

/-- Claim C8: the `/poll` handler never mutates the receipt store; while a
handle has no receipt every poll answers unconfirmed with the empty
receipt; and once the handle has an inclusion receipt, every later poll —
over any evolution of the store that keeps produced receipts immutable —
answers confirmed with that same, identical receipt. -/
theorem c8_poll_idempotent (chain : ReceiptStore) (txHash : Nat) :
    ((pollHandler chain txHash).2 = chain) ∧
    (chain txHash = none →
      (pollHandler chain txHash).1 = ⟨txHash, false, none⟩) ∧
    (∀ (r : TxReceipt) (chain2 : ReceiptStore),
      chain txHash = some r → r.blockNumber ≠ 0 →
      ReceiptsPersist chain chain2 →
      (pollHandler chain2 txHash).1 = ⟨txHash, true, some r⟩) := by
  refine ⟨rfl, ?_, ?_⟩
  · intro h
    simp [pollHandler, h]
  · intro r chain2 h hb hp
    have h2 : chain2 txHash = some r := hp txHash r h
    simp [pollHandler, h2, hb]

/-- Witness for C8 on the demo receipt store: hash 41 is pending, hash 42
is included, and re-polling the unchanged store repeats the receipt. -/
theorem c8_witness :
    ((pollHandler demoChain 42).2 = demoChain) ∧
    ((pollHandler demoChain 41).1 = ⟨41, false, none⟩) ∧
    ((pollHandler demoChain 42).1 = ⟨42, true, some demoReceipt⟩) :=
  ⟨(c8_poll_idempotent demoChain 42).1,
   (c8_poll_idempotent demoChain 41).2.1 rfl,
   (c8_poll_idempotent demoChain 42).2.2 demoReceipt demoChain rfl
     (by decide) (fun _ _ hh => hh)⟩

/-- Claim C10: address lookup upper-cases both the stored and the queried
address, so it is fully case-insensitive — the query's case never changes
the result, any stored token matching up to case is found, and a found
token matches the query up to case; symbol lookup upper-cases only the
query and compares verbatim, so a found token's stored symbol can contain
no lowercase letter — a token whose symbol has one is unreachable; and both
lookups answer `none` (JS `undefined`), not an error, when nothing
matches. -/
theorem c10_token_lookup :
    (∀ (tokens : List TokenInfo) (q q2 : List Nat),
      strToUpper q = strToUpper q2 →
      getERC20TokenByAddress tokens q = getERC20TokenByAddress tokens q2) ∧
    (∀ (tokens : List TokenInfo) (q : List Nat) (t : TokenInfo),
      getERC20TokenByAddress tokens q = some t →
      strToUpper t.address = strToUpper q) ∧
    (∀ (tokens : List TokenInfo) (q : List Nat) (t : TokenInfo),
      t ∈ tokens → strToUpper t.address = strToUpper q →
      ∃ t2, getERC20TokenByAddress tokens q = some t2) ∧
    (∀ (tokens : List TokenInfo) (q : List Nat) (t : TokenInfo) (c : Nat),
      getERC20TokenAddresses tokens q = some t →
      c ∈ t.symbol → ¬ isLowerCode c) ∧
    (∀ (tokens : List TokenInfo) (q : List Nat),
      (∀ t ∈ tokens, t.symbol ≠ strToUpper q) →
      getERC20TokenAddresses tokens q = none) ∧
    (∀ (tokens : List TokenInfo) (q : List Nat),
      (∀ t ∈ tokens, strToUpper t.address ≠ strToUpper q) →
      getERC20TokenByAddress tokens q = none) := by
  refine ⟨?_, ?_, ?_, ?_, ?_, ?_⟩
  · intro tokens q q2 h
    simp only [getERC20TokenByAddress, h]
  · intro tokens q t h
    have hmem := head?_some_mem h
    exact of_decide_eq_true (List.mem_filter.mp hmem).2
  · intro tokens q t hmem hup
    have hf : t ∈ tokens.filter
        (fun t0 => decide (strToUpper t0.address = strToUpper q)) :=
      List.mem_filter.mpr ⟨hmem, decide_eq_true hup⟩
    cases hh : (tokens.filter
        (fun t0 => decide (strToUpper t0.address = strToUpper q))).head? with
    | some t2 => exact ⟨t2, hh⟩
    | none =>
        rw [List.head?_eq_none_iff] at hh
        rw [hh] at hf
        cases hf
  · intro tokens q t c h hc
    have hmem := head?_some_mem h
    have hsym : t.symbol = strToUpper q :=
      of_decide_eq_true (List.mem_filter.mp hmem).2
    rw [hsym] at hc
    exact strToUpper_no_lower hc
  · intro tokens q h
    unfold getERC20TokenAddresses
    rw [List.filter_eq_nil_iff.mpr]
    · rfl
    · intro t hmem
      simp only [decide_eq_true_eq]
      exact h t hmem
  · intro tokens q h
    unfold getERC20TokenByAddress
    rw [List.filter_eq_nil_iff.mpr]
    · rfl
    · intro t hmem
      simp only [decide_eq_true_eq]
      exact h t hmem

/-- Witness for C10 on a two-entry token list: the address query in mixed
case and upper case find the same entry; the entry found by symbol has no
lowercase letter in its stored symbol; and a symbol query matching nothing
returns `none`. -/
theorem c10_witness :
    (getERC20TokenByAddress [daiUpper] [48, 120, 97, 98]
      = getERC20TokenByAddress [daiUpper] [48, 120, 65, 66]) ∧
    (¬ isLowerCode 68) ∧
    (getERC20TokenAddresses [daiLower] [100, 97, 105] = none) :=
  ⟨c10_token_lookup.1 [daiUpper] [48, 120, 97, 98] [48, 120, 65, 66] (by decide),
   c10_token_lookup.2.2.2.1 [daiUpper] [100, 97, 105] daiUpper 68 rfl (by decide),
   c10_token_lookup.2.2.2.2.1 [daiLower] [100, 97, 105] (by decide)⟩

end Gateway
